import Mathlib

/-!
Shallow embedding of the kform-providers/kubernetes status classification and
convergence-polling engine (package `provider/kstatus/status` and the poller in
`provider`), together with theorems about its specified behaviour.

Modelling conventions:
* Dynamic `map[string]interface{}` attribute trees are modelled by `Value`
  (JSON-shaped: null, bool, integer, float, string, list, map).  Go's
  `int`/`int32`/`int64` cases all widen to `Int`; `float64` values are a
  separate constructor whose payload is never inspected by the code.
* Fallible Go functions returning `(T, error)` become `Except` values.  A Go
  runtime panic (from an unchecked type assertion) is a distinct failure
  constructor from an ordinary `error` return.
* `time.Now()` is made explicit: classifiers take the current time (seconds)
  as an argument; only the Pod classifier ever reads it.
* Timestamps are epoch seconds; RFC3339 strings of the form
  `YYYY-MM-DDTHH:MM:SSZ` are parsed by `parseRFC3339`.
-/

namespace KStatus

/-- `strings.Split` for a single-character separator, on the character list. -/
def splitOnChar (sep : Char) : List Char → List (List Char)
  | [] => [[]]
  | c :: rest =>
    let r := splitOnChar sep rest
    if c = sep then [] :: r
    else
      match r with
      | [] => [[c]]
      | g :: gs => (c :: g) :: gs

/-- Model of Go `strings.Split(s, sep)` for a one-character separator. -/
def goSplit (s : String) (sep : Char) : List String :=
  (splitOnChar sep s.toList).map List.asString

/-- A dynamically typed value of a resource attribute tree, as produced by
generic JSON unmarshalling into `map[string]interface{}`. -/
inductive Value where
  | vnull
  | vbool (b : Bool)
  | vint (n : Int)
  | vfloat (mantissa : Int)
  | vstr (s : String)
  | vlist (xs : List Value)
  | vmap (kvs : List (String × Value))

/-- Go map indexing `m[field]` on the association-list model of a JSON map. -/
def mapGet (kvs : List (String × Value)) (k : String) : Option Value :=
  match kvs with
  | [] => none
  | (k', v) :: rest => if k' = k then some v else mapGet rest k

/-- Traversal core of `unstructured.NestedFieldNoCopy`: walk the field path.
`Except.error` models the `(nil, false, err)` return (intermediate value is
not a map), `.ok none` models `(nil, false, nil)` (not found), `.ok (some v)`
models `(v, true, nil)`. -/
def nestedGo : Value → List String → Except String (Option Value)
  | v, [] => .ok (some v)
  | .vnull, _ :: _ => .ok none
  | .vmap kvs, f :: rest =>
    match mapGet kvs f with
    | none => .ok none
    | some v => nestedGo v rest
  | _, _ :: _ => .error ("accessor error: not a map")

/-- `unstructured.NestedFieldNoCopy(obj, fields...)`. -/
def NestedFieldNoCopy (obj : List (String × Value)) (fields : List String) :
    Except String (Option Value) :=
  nestedGo (Value.vmap obj) fields

/-- `unstructured.NestedString`: the found value must be a Go `string`. -/
def NestedString (obj : List (String × Value)) (fields : List String) :
    Except String (Option String) :=
  match NestedFieldNoCopy obj fields with
  | .error e => .error e
  | .ok none => .ok none
  | .ok (some (.vstr s)) => .ok (some s)
  | .ok (some _) => .error ("expected string")

/-- `unstructured.NestedInt64`: the found value must be an `int64`. -/
def NestedInt64 (obj : List (String × Value)) (fields : List String) :
    Except String (Option Int) :=
  match NestedFieldNoCopy obj fields with
  | .error e => .error e
  | .ok none => .ok none
  | .ok (some (.vint n)) => .ok (some n)
  | .ok (some _) => .error ("expected int64")

/-- `unstructured.NestedSlice`: the found value must be a `[]interface{}`. -/
def NestedSlice (obj : List (String × Value)) (fields : List String) :
    Except String (Option (List Value)) :=
  match NestedFieldNoCopy obj fields with
  | .error e => .error e
  | .ok none => .ok none
  | .ok (some (.vlist xs)) => .ok (some xs)
  | .ok (some _) => .error ("expected slice")

/-- The field-path preprocessing shared by `GetStringField` and `GetIntField`
(util.go): split on `.` and drop a leading empty segment. -/
def fieldPathSegs (fieldPath : String) : List String :=
  match goSplit fieldPath ('.') with
  | "" :: rest => rest
  | fs => fs

/-- util.go `GetStringField`: return the field as string, defaulting on a
missing value, a traversal error, or a non-string value. -/
def GetStringField (obj : List (String × Value)) (fieldPath : String)
    (defaultValue : String) : String :=
  match NestedFieldNoCopy obj (fieldPathSegs fieldPath) with
  | .ok (some (.vstr v)) => v
  | _ => defaultValue

/-- util.go `GetIntField`: return the field as int, defaulting on a missing
value, a traversal error, or a value that is not a native int/int32/int64
(in particular a float64 yields the default). -/
def GetIntField (obj : List (String × Value)) (fieldPath : String)
    (defaultValue : Int) : Int :=
  match NestedFieldNoCopy obj (fieldPathSegs fieldPath) with
  | .ok (some (.vint v)) => v
  | _ => defaultValue

/-- Decimal digit value of a character, if it is one. -/
def digitVal (c : Char) : Option Nat :=
  if c.isDigit then some (c.toNat - 48) else none

/-- Days from 1970-01-01 of a civil date (standard civil-calendar formula). -/
def daysFromCivil (y m d : Int) : Int :=
  let y := if m ≤ 2 then y - 1 else y
  let era := (if 0 ≤ y then y else y - 399) / 400
  let yoe := y - era * 400
  let mp := (m + 9) % 12
  let doy := (153 * mp + 2) / 5 + d - 1
  let doe := yoe * 365 + yoe / 4 - yoe / 100 + doy
  era * 146097 + doe - 719468

/-- Parse an RFC3339 timestamp of the shape `YYYY-MM-DDTHH:MM:SSZ` to epoch
seconds (the shape `metav1.Time` serializes to); anything else fails. -/
def parseRFC3339 (s : String) : Option Int :=
  match s.toList with
  | [y1, y2, y3, y4, '-', m1, m2, '-', d1, d2, 'T',
     h1, h2, ':', n1, n2, ':', s1, s2, 'Z'] =>
    match digitVal y1, digitVal y2, digitVal y3, digitVal y4,
          digitVal m1, digitVal m2, digitVal d1, digitVal d2,
          digitVal h1, digitVal h2, digitVal n1, digitVal n2,
          digitVal s1, digitVal s2 with
    | some a, some b, some c, some d, some mA, some mB, some dA, some dB,
      some hA, some hB, some nA, some nB, some sA, some sB =>
      let y : Int := Int.ofNat (a * 1000 + b * 100 + c * 10 + d)
      let mo : Int := Int.ofNat (mA * 10 + mB)
      let dy : Int := Int.ofNat (dA * 10 + dB)
      let hh : Int := Int.ofNat (hA * 10 + hB)
      let mi : Int := Int.ofNat (nA * 10 + nB)
      let ss : Int := Int.ofNat (sA * 10 + sB)
      if 1 ≤ mo ∧ mo ≤ 12 ∧ 1 ≤ dy ∧ dy ≤ 31 ∧ hh ≤ 23 ∧ mi ≤ 59 ∧ ss ≤ 59 then
        some (daysFromCivil y mo dy * 86400 + hh * 3600 + mi * 60 + ss)
      else none
    | _, _, _, _, _, _, _, _, _, _, _, _, _, _ => none
  | _ => none

/-- A decoded `status.conditions` entry (the fields of `metav1.Condition`
that the classifier reads). -/
structure Cond where
  ctype : String
  status : String
  reason : String
  message : String
deriving DecidableEq

/-- Decode one string-typed condition field: missing means the zero value,
a present value of the wrong dynamic type is a conversion error
(`runtime.DefaultUnstructuredConverter.FromUnstructured` semantics). -/
def decodeCondField (m : List (String × Value)) (k : String) :
    Except String String :=
  match mapGet m k with
  | none => .ok ("")
  | some (.vstr s) => .ok s
  | some _ => .error ("cannot convert condition field " ++ k)

/-- Decode check of the `lastTransitionTime` condition field (a
`metav1.Time`): absent or null decodes to the zero time, a string must parse
as RFC3339, any other dynamic type is a conversion error. -/
def decodeCondTime (m : List (String × Value)) : Except String Unit :=
  match mapGet m ("lastTransitionTime") with
  | none => .ok ()
  | some .vnull => .ok ()
  | some (.vstr s) =>
    if (parseRFC3339 s).isSome then .ok ()
    else .error ("cannot convert condition field lastTransitionTime")
  | some _ => .error ("cannot convert condition field lastTransitionTime")

/-- Type checks `FromUnstructured` performs on the `metav1.Condition` fields
the classifier does not read: `observedGeneration` must be an integer (or
absent/null) and `lastTransitionTime` a parsable timestamp. -/
def decodeCondMeta (m : List (String × Value)) : Except String Unit :=
  match mapGet m ("observedGeneration") with
  | none => decodeCondTime m
  | some .vnull => decodeCondTime m
  | some (.vint _) => decodeCondTime m
  | some _ => .error ("cannot convert condition field observedGeneration")

/-- Decode one entry of `status.conditions`. -/
def decodeCond (v : Value) : Except String Cond :=
  match v with
  | .vmap m =>
    match decodeCondField m ("type") with
    | .error e => .error e
    | .ok t =>
      match decodeCondField m ("status") with
      | .error e => .error e
      | .ok st =>
        match decodeCondMeta m with
        | .error e => .error e
        | .ok _ =>
          match decodeCondField m ("reason") with
          | .error e => .error e
          | .ok r =>
            match decodeCondField m ("message") with
            | .error e => .error e
            | .ok msg => .ok ⟨t, st, r, msg⟩
  | _ => .error ("cannot convert condition entry")

/-- Decode the `status.conditions` value into the condition list. -/
def decodeConds (v : Value) : Except String (List Cond) :=
  match v with
  | .vnull => .ok []
  | .vlist xs => decodeCondList xs
  | _ => .error ("cannot convert conditions")
where
  decodeCondList : List Value → Except String (List Cond)
    | [] => .ok []
    | x :: rest =>
      match decodeCond x with
      | .error e => .error e
      | .ok c =>
        match decodeCondList rest with
        | .error e => .error e
        | .ok cs => .ok (c :: cs)

/-- `GetObjectWithConditions` (generic.go): decode the object into
`ObjWithConditions`, i.e. extract `status.conditions` as typed conditions.
A missing or null `status`/`conditions` decodes to no conditions; a present
substructure of the wrong shape is a conversion error. -/
def GetObjectWithConditions (obj : List (String × Value)) :
    Except String (List Cond) :=
  match mapGet obj ("status") with
  | none => .ok []
  | some .vnull => .ok []
  | some (.vmap sm) =>
    match mapGet sm ("conditions") with
    | none => .ok []
    | some v => decodeConds v
  | some _ => .error ("cannot convert status")

/-- `getConditionWithStatus`: first condition matching both type and status. -/
def getConditionWithStatus (conditions : List Cond) (conditionType : String)
    (status : String) : Option Cond :=
  match conditions with
  | [] => none
  | c :: rest =>
    if c.ctype = conditionType ∧ c.status = status then some c
    else getConditionWithStatus rest conditionType status

/-- `hasConditionWithStatus`. -/
def hasConditionWithStatus (conditions : List Cond) (conditionType : String)
    (status : String) : Bool :=
  (getConditionWithStatus conditions conditionType status).isSome

/-- `metav1.ConditionTrue`. -/
def ConditionTrue : String := "True"

/-- `metav1.ConditionFalse`. -/
def ConditionFalse : String := "False"

def ReasonReady : String := "Ready"
def ReasonTerminating : String := "Terminating"
def ReasonInProgress : String := "InProgress"
def ReasonNoStatusInfo : String := "NoStatusInfo"
def ReasonUserManaged : String := "UserManaged"
def ReasonFailed : String := "Failed"

/-- The result of a call to compute the status of a resource. -/
structure Result where
  Status : String
  Reason : String
  Message : String
deriving DecidableEq

def ready (msg : String) : Result := ⟨ConditionTrue, ReasonReady, msg⟩

def noStatusInfo : Result := ⟨ConditionTrue, ReasonNoStatusInfo, ""⟩

def userManaged : Result := ⟨ConditionTrue, ReasonUserManaged, ""⟩

def inProgress (msg : String) : Result := ⟨ConditionFalse, ReasonInProgress, msg⟩

def terminating : Result := ⟨ConditionFalse, ReasonTerminating, ""⟩

def failed (msg : String) : Result := ⟨ConditionFalse, ReasonFailed, msg⟩

/-- A Go failure: either an ordinary `error` return value, or a runtime
panic (from an unchecked type assertion). -/
inductive Failure where
  | goError (msg : String)
  | goPanic (msg : String)
deriving DecidableEq

abbrev Exec (α : Type) := Except Failure α

/-- `unstructured.Unstructured`: the wrapped attribute tree. -/
structure Unstructured where
  Object : List (String × Value)

/-- `getNestedString` as used by the metadata accessors: empty string on any
failure. -/
def Unstructured.nestedStringOrEmpty (u : Unstructured) (fields : List String) :
    String :=
  match NestedString u.Object fields with
  | .ok (some s) => s
  | _ => ""

def Unstructured.GetKind (u : Unstructured) : String :=
  u.nestedStringOrEmpty ["kind"]

def Unstructured.GetAPIVersion (u : Unstructured) : String :=
  u.nestedStringOrEmpty ["apiVersion"]

def Unstructured.GetName (u : Unstructured) : String :=
  u.nestedStringOrEmpty ["metadata", "name"]

def Unstructured.GetNamespace (u : Unstructured) : String :=
  u.nestedStringOrEmpty ["metadata", "namespace"]

/-- `schema.ParseGroupVersion`: `""` and `"/"` parse to the empty group and
version; one slash separates group from version; more is an error. -/
def parseGroupVersion (gv : String) : Except String (String × String) :=
  if gv = "" ∨ gv = "/" then .ok ("", "")
  else
    match goSplit gv ('/') with
    | [v] => .ok ("", v)
    | [g, v] => .ok (g, v)
    | _ => .error ("unexpected GroupVersion string")

structure GVK where
  group : String
  version : String
  kind : String

/-- `u.GroupVersionKind()`: empty on an unparsable apiVersion. -/
def Unstructured.groupVersionKind (u : Unstructured) : GVK :=
  match parseGroupVersion u.GetAPIVersion with
  | .error _ => ⟨"", "", ""⟩
  | .ok (g, v) => ⟨g, v, u.GetKind⟩

/-- `schema.GroupVersionKind.String()`. -/
def GVK.toGoString (g : GVK) : String :=
  g.group ++ "/" ++ g.version ++ ", Kind=" ++ g.kind

/-- `types.NamespacedName.String()`. -/
def nsnString (u : Unstructured) : String :=
  u.GetNamespace ++ "/" ++ u.GetName

/-- The registry key of `GetLegacyConditionsFn`: `group + "/" + kind`, or the
bare kind for the core (empty) group. -/
def dispatchKey (u : Unstructured) : String :=
  let gvk := u.groupVersionKind
  if gvk.group = "" then gvk.kind else gvk.group ++ "/" ++ gvk.kind

/-- Epoch seconds of the zero `time.Time` (January 1, year 1, UTC). -/
def goZeroTime : Int := -62135596800

/-- `u.GetCreationTimestamp().Time`: parse `metadata.creationTimestamp`;
missing or unparsable yields the zero time. -/
def creationTime (u : Unstructured) : Int :=
  (parseRFC3339 (u.nestedStringOrEmpty ["metadata", "creationTimestamp"])).getD
    goZeroTime

/-- `ScheduleWindow`: how long a pod can be unscheduled before it is reported
as unschedulable (15 seconds, in the seconds time model). -/
def ScheduleWindow : Int := 15

def onDeleteUpdateStrategy : String := "OnDelete"

/-- `math.MaxInt32`. -/
def maxInt32 : Int := 2147483647

/-- generic.go `checkGeneration`: InProgress when both `metadata.generation`
and `status.observedGeneration` are present and differ; skipped when either
is absent. -/
def checkGeneration (u : Unstructured) : Exec (Option Result) :=
  match NestedInt64 u.Object ["metadata", "generation"] with
  | .error e =>
    .error (.goError ("cannot lookup metadata.generation from resource: " ++ e))
  | .ok none => .ok none
  | .ok (some generation) =>
    match NestedInt64 u.Object ["status", "observedGeneration"] with
    | .error e =>
      .error (.goError
        ("cannot lookup status.observedGeneration from resource: " ++ e))
    | .ok none => .ok none
    | .ok (some observedGeneration) =>
      if observedGeneration ≠ generation then
        .ok (some (inProgress (u.GetKind ++ " generation is " ++
          toString generation ++ ", but latest observed generation is " ++
          toString observedGeneration)))
      else .ok none

/-- The Ready-condition scan of `checkGenericProperties`: the first condition
of type `Ready` decides the verdict. -/
def readyCondScan : List Cond → Option Result
  | [] => none
  | c :: rest =>
    if c.ctype = "Ready" then
      if c.status = ConditionTrue then some (ready c.message)
      else some (inProgress c.message)
    else readyCondScan rest

/-- The tail of `checkGenericProperties` past the deletion-timestamp rule:
the generation rule, then the standard Ready condition. -/
def checkGenericPropertiesRest (u : Unstructured) : Exec (Option Result) :=
  match checkGeneration u with
  | .error e => .error e
  | .ok (some res) => .ok (some res)
  | .ok none =>
    match GetObjectWithConditions u.Object with
    | .error e => .error (.goError e)
    | .ok conds => .ok (readyCondScan conds)

/-- generic.go `checkGenericProperties`: deletion timestamp, then generation,
then the standard Ready condition; `.ok none` defers to kind-specific
classification. -/
def checkGenericProperties (u : Unstructured) : Exec (Option Result) :=
  match NestedString u.Object ["metadata", "deletionTimestamp"] with
  | .error e =>
    .error (.goError
      ("cannot lookup metadata.deletionTimestamp from resource: " ++ e))
  | .ok (some deletionTimestamp) =>
    if deletionTimestamp ≠ "" then .ok (some terminating)
    else checkGenericPropertiesRest u
  | .ok none => checkGenericPropertiesRest u

/-- core.go `alwaysReady`. -/
def alwaysReady (_now : Int) (_u : Unstructured) : Exec Result :=
  .ok (ready ("ready"))

/-- core.go `stsConditions`. -/
def stsConditions (_now : Int) (u : Unstructured) : Exec Result :=
  let obj := u.Object
  let updateStrategy := GetStringField obj (".spec.updateStrategy.type") ("")
  if updateStrategy = onDeleteUpdateStrategy then .ok userManaged
  else
  let specReplicas := GetIntField obj (".spec.replicas") 1
  let readyReplicas := GetIntField obj (".status.readyReplicas") 0
  let currentReplicas := GetIntField obj (".status.currentReplicas") 0
  let updatedReplicas := GetIntField obj (".status.updatedReplicas") 0
  let statusReplicas := GetIntField obj (".status.replicas") 0
  let partition :=
    GetIntField obj (".spec.updateStrategy.rollingUpdate.partition") (-1)
  if specReplicas > statusReplicas then
    .ok (inProgress ("Replicas: " ++ toString statusReplicas ++ "/" ++
      toString specReplicas))
  else if specReplicas > readyReplicas then
    .ok (inProgress ("Ready: " ++ toString readyReplicas ++ "/" ++
      toString specReplicas))
  else if statusReplicas > specReplicas then
    .ok (inProgress ("Pending termination: " ++
      toString (statusReplicas - specReplicas)))
  else if partition ≠ -1 then
    if updatedReplicas < specReplicas - partition then
      .ok (inProgress ("updated: " ++ toString updatedReplicas ++ "/" ++
        toString (specReplicas - partition)))
    else
      .ok (ready ("Partition rollout complete. updated: " ++
        toString updatedReplicas))
  else if specReplicas > currentReplicas then
    .ok (inProgress ("current: " ++ toString currentReplicas ++ "/" ++
      toString specReplicas))
  else
  let currentRevision := GetStringField obj (".status.currentRevision") ("")
  let updatedRevision := GetStringField obj (".status.updateRevision") ("")
  if currentRevision ≠ updatedRevision then
    .ok (inProgress ("Waiting for updated revision to match current"))
  else
    .ok (ready ("All replicas scheduled as expected. Replicas: " ++
      toString statusReplicas))

/-- The condition scan of `deploymentConditions`: either an early `Failed`
return on ProgressDeadlineExceeded, or the final (progressing, available)
flag pair. -/
def deploymentCondScan : List Cond → Bool → Bool → Result ⊕ (Bool × Bool)
  | [], progressing, available => .inr (progressing, available)
  | c :: rest, progressing, available =>
    if c.ctype = "Progressing" then
      if c.reason = "ProgressDeadlineExceeded" then .inl (failed c.message)
      else if c.status = ConditionTrue ∧ c.reason = "NewReplicaSetAvailable" then
        deploymentCondScan rest true available
      else deploymentCondScan rest progressing available
    else if c.ctype = "Available" then
      if c.status = ConditionTrue then deploymentCondScan rest progressing true
      else deploymentCondScan rest progressing available
    else deploymentCondScan rest progressing available

/-- core.go `deploymentConditions`. -/
def deploymentConditions (_now : Int) (u : Unstructured) : Exec Result :=
  let obj := u.Object
  let progressDeadline := GetIntField obj (".spec.progressDeadlineSeconds") maxInt32
  let progressing0 := progressDeadline = maxInt32
  match GetObjectWithConditions obj with
  | .error e => .error (.goError e)
  | .ok conds =>
    match deploymentCondScan conds progressing0 false with
    | .inl r => .ok r
    | .inr (progressing, available) =>
      let specReplicas := GetIntField obj (".spec.replicas") 1
      let statusReplicas := GetIntField obj (".status.replicas") 0
      let updatedReplicas := GetIntField obj (".status.updatedReplicas") 0
      let readyReplicas := GetIntField obj (".status.readyReplicas") 0
      let availableReplicas := GetIntField obj (".status.availableReplicas") 0
      if specReplicas > statusReplicas then
        .ok (inProgress ("Replicas: " ++ toString statusReplicas ++ "/" ++
          toString specReplicas))
      else if specReplicas > updatedReplicas then
        .ok (inProgress ("Updated: " ++ toString updatedReplicas ++ "/" ++
          toString specReplicas))
      else if statusReplicas > specReplicas then
        .ok (inProgress ("Pending termination: " ++
          toString (statusReplicas - specReplicas)))
      else if updatedReplicas > availableReplicas then
        .ok (inProgress ("Available: " ++ toString availableReplicas ++ "/" ++
          toString updatedReplicas))
      else if specReplicas > readyReplicas then
        .ok (inProgress ("Ready: " ++ toString readyReplicas ++ "/" ++
          toString specReplicas))
      else if !progressing then .ok (inProgress ("ReplicaSet not Available"))
      else if !available then .ok (inProgress ("Deployment not Available"))
      else
        .ok (ready ("Deployment is available. Replicas: " ++
          toString statusReplicas))

/-- The condition scan of `replicasetConditions`. -/
def replicaFailureScan : List Cond → Option Result
  | [] => none
  | c :: rest =>
    if c.ctype = "ReplicaFailure" ∧ c.status = ConditionTrue then
      some (inProgress ("Replica Failure condition. Check Pods"))
    else replicaFailureScan rest

/-- core.go `replicasetConditions`. -/
def replicasetConditions (_now : Int) (u : Unstructured) : Exec Result :=
  let obj := u.Object
  match GetObjectWithConditions obj with
  | .error e => .error (.goError e)
  | .ok conds =>
    match replicaFailureScan conds with
    | some r => .ok r
    | none =>
      let specReplicas := GetIntField obj (".spec.replicas") 1
      let statusReplicas := GetIntField obj (".status.replicas") 0
      let readyReplicas := GetIntField obj (".status.readyReplicas") 0
      let availableReplicas := GetIntField obj (".status.availableReplicas") 0
      let fullyLabelledReplicas :=
        GetIntField obj (".status.fullyLabeledReplicas") 0
      if specReplicas > fullyLabelledReplicas then
        .ok (inProgress ("Labelled: " ++ toString fullyLabelledReplicas ++
          "/" ++ toString specReplicas))
      else if specReplicas > availableReplicas then
        .ok (inProgress ("Available: " ++ toString availableReplicas ++ "/" ++
          toString specReplicas))
      else if specReplicas > readyReplicas then
        .ok (inProgress ("Ready: " ++ toString readyReplicas ++ "/" ++
          toString specReplicas))
      else if statusReplicas > specReplicas then
        .ok (inProgress ("Pending termination: " ++
          toString (statusReplicas - specReplicas)))
      else
        .ok (ready ("ReplicaSet is available. Replicas: " ++
          toString statusReplicas))

/-- core.go `checkGenerationSet`: both generation fields must be present. -/
def checkGenerationSet (u : Unstructured) : Exec (Option Result) :=
  match NestedInt64 u.Object ["metadata", "generation"] with
  | .error e =>
    .error (.goError ("looking up metadata.generation from resource: " ++ e))
  | .ok none => .ok (some (inProgress (u.GetKind ++ " metadata.generation not found")))
  | .ok (some _) =>
    match NestedInt64 u.Object ["status", "observedGeneration"] with
    | .error e =>
      .error (.goError
        ("looking up status.observedGeneration from resource: " ++ e))
    | .ok none =>
      .ok (some (inProgress (u.GetKind ++ " status.observedGeneration not found")))
    | .ok (some _) => .ok none

/-- core.go `daemonsetConditions`. -/
def daemonsetConditions (_now : Int) (u : Unstructured) : Exec Result :=
  match checkGenerationSet u with
  | .error e => .error e
  | .ok (some res) => .ok res
  | .ok none =>
    let obj := u.Object
    let desiredNumberScheduled :=
      GetIntField obj (".status.desiredNumberScheduled") (-1)
    let currentNumberScheduled :=
      GetIntField obj (".status.currentNumberScheduled") 0
    let updatedNumberScheduled :=
      GetIntField obj (".status.updatedNumberScheduled") 0
    let numberAvailable := GetIntField obj (".status.numberAvailable") 0
    let numberReady := GetIntField obj (".status.numberReady") 0
    if desiredNumberScheduled = -1 then
      .ok (inProgress ("Missing .status.desiredNumberScheduled"))
    else if desiredNumberScheduled > currentNumberScheduled then
      .ok (inProgress ("Current: " ++ toString currentNumberScheduled ++ "/" ++
        toString desiredNumberScheduled))
    else if desiredNumberScheduled > updatedNumberScheduled then
      .ok (inProgress ("Updated: " ++ toString updatedNumberScheduled ++ "/" ++
        toString desiredNumberScheduled))
    else if desiredNumberScheduled > numberAvailable then
      .ok (inProgress ("Available: " ++ toString numberAvailable ++ "/" ++
        toString desiredNumberScheduled))
    else if desiredNumberScheduled > numberReady then
      .ok (inProgress ("Ready: " ++ toString numberReady ++ "/" ++
        toString desiredNumberScheduled))
    else
      .ok (ready ("All replicas scheduled as expected. Replicas: " ++
        toString desiredNumberScheduled))

/-- core.go `pvcConditions`. -/
def pvcConditions (_now : Int) (u : Unstructured) : Exec Result :=
  let phase := GetStringField u.Object (".status.phase") ("unknown")
  if phase ≠ "Bound" then
    .ok (inProgress ("PVC is not Bound. phase: " ++ phase))
  else .ok (ready ("PVC is bound"))

/-- The container-status walk of `getCrashLoopingContainers`.  Go ranges over
the slice with unchecked type assertions: a `name`, `state`, `waiting` or
`reason` value of the wrong dynamic type is a runtime panic, a missing key
skips the entry. -/
def crashLoopScan : List Value → Except Failure (List String)
  | [] => .ok []
  | item :: rest =>
    match item with
    | .vmap cs =>
      match mapGet cs ("name") with
      | none => crashLoopScan rest
      | some (.vstr name) =>
        match mapGet cs ("state") with
        | none => crashLoopScan rest
        | some (.vmap state) =>
          match mapGet state ("waiting") with
          | none => crashLoopScan rest
          | some (.vmap waitingState) =>
            match mapGet waitingState ("reason") with
            | none => crashLoopScan rest
            | some (.vstr reason) =>
              if reason = "CrashLoopBackOff" then
                match crashLoopScan rest with
                | .error e => .error e
                | .ok names => .ok (name :: names)
              else crashLoopScan rest
            | some _ =>
              .error (.goPanic ("interface conversion: reason is not a string"))
          | some _ =>
            .error (.goPanic ("interface conversion: waiting is not a map"))
        | some _ =>
          .error (.goPanic ("interface conversion: state is not a map"))
      | some _ =>
        .error (.goPanic ("interface conversion: name is not a string"))
    | _ =>
      .error (.goPanic ("interface conversion: container status is not a map"))

/-- core.go `getCrashLoopingContainers`. -/
def getCrashLoopingContainers (obj : List (String × Value)) :
    Except Failure (List String × Bool) :=
  match NestedSlice obj ["status", "containerStatuses"] with
  | .error e => .error (.goError e)
  | .ok none => .ok ([], false)
  | .ok (some css) =>
    match crashLoopScan css with
    | .error e => .error e
    | .ok containerNames => .ok (containerNames, containerNames.length > 0)

/-- core.go `podConditions`.  The `Pending` branch is the one classifier that
reads the clock: `time.Now().Add(-ScheduleWindow).Before(creationTime)`. -/
def podConditions (now : Int) (u : Unstructured) : Exec Result :=
  match GetObjectWithConditions u.Object with
  | .error e => .error (.goError e)
  | .ok conds =>
    let phase := GetStringField u.Object (".status.phase") ("")
    if phase = "Succeeded" then .ok (ready ("Pod completed"))
    else if phase = "Failed" then .ok (failed ("Pod failed"))
    else if phase = "Running" then
      if hasConditionWithStatus conds ("Ready") ConditionTrue then
        .ok (ready ("Pod ready"))
      else
        match getCrashLoopingContainers u.Object with
        | .error e => .error e
        | .ok (containerNames, isCrashLooping) =>
          if isCrashLooping then
            .ok (failed ("Containers in CrashLoop state: " ++
              String.intercalate (",") containerNames))
          else .ok (inProgress ("Pod is running but is not Ready"))
    else if phase = "Pending" then
      match getConditionWithStatus conds ("PodScheduled") ConditionFalse with
      | some c =>
        if c.reason = "Unschedulable" then
          if now - ScheduleWindow < creationTime u then
            .ok (inProgress ("Pod has not been scheduled"))
          else .ok (failed ("Pod could not be scheduled"))
        else .ok (inProgress ("Pod is in the Pending phase"))
      | none => .ok (inProgress ("Pod is in the Pending phase"))
    else if phase = "" then .ok (inProgress ("Pod phase not available"))
    else .error (.goError ("unknown phase " ++ phase))

/-- core.go `pdbConditions`. -/
def pdbConditions (_now : Int) (_u : Unstructured) : Exec Result :=
  .ok (ready ("AllowedDisruptions has been computed."))

/-- The condition scan of `jobConditions`. -/
def jobCondScan (completions succeeded podFailed : Int) :
    List Cond → Option Result
  | [] => none
  | c :: rest =>
    if c.ctype = "Complete" then
      if c.status = ConditionTrue then
        some (ready ("Job Completed. succeeded: " ++ toString succeeded ++
          "/" ++ toString completions))
      else jobCondScan completions succeeded podFailed rest
    else if c.ctype = "Failed" then
      if c.status = ConditionTrue then
        some (failed ("Job Failed. failed: " ++ toString podFailed ++ "/" ++
          toString completions))
      else jobCondScan completions succeeded podFailed rest
    else jobCondScan completions succeeded podFailed rest

/-- core.go `jobConditions`. -/
def jobConditions (_now : Int) (u : Unstructured) : Exec Result :=
  let obj := u.Object
  let parallelism := GetIntField obj (".spec.parallelism") 1
  let completions := GetIntField obj (".spec.completions") parallelism
  let succeeded := GetIntField obj (".status.succeeded") 0
  let active := GetIntField obj (".status.active") 0
  let podFailed := GetIntField obj (".status.failed") 0
  let starttime := GetStringField obj (".status.startTime") ("")
  match GetObjectWithConditions obj with
  | .error e => .error (.goError e)
  | .ok conds =>
    match jobCondScan completions succeeded podFailed conds with
    | some r => .ok r
    | none =>
      if starttime = "" then .ok (inProgress ("Job not started"))
      else
        .ok (inProgress ("Job in progress. success:" ++ toString succeeded ++
          ", active: " ++ toString active ++ ", failed: " ++
          toString podFailed))

/-- core.go `serviceConditions`. -/
def serviceConditions (_now : Int) (u : Unstructured) : Exec Result :=
  let obj := u.Object
  let specType := GetStringField obj (".spec.type") ("ClusterIP")
  let specClusterIP := GetStringField obj (".spec.clusterIP") ("")
  if specType = "LoadBalancer" ∧ specClusterIP = "" then
    .ok (inProgress ("ClusterIP not set. Service type: LoadBalancer"))
  else .ok (ready ("service ready"))

/-- The condition scan of `crdConditions`. -/
def crdCondScan : List Cond → Option Result
  | [] => none
  | c :: rest =>
    if c.ctype = "NamesAccepted" ∧ c.status = ConditionFalse then
      some (failed c.message)
    else if c.ctype = "Established" then
      if c.status = ConditionFalse ∧ c.reason ≠ "Installing" then
        some (failed c.message)
      else if c.status = ConditionTrue then some (ready ("CRD established"))
      else crdCondScan rest
    else crdCondScan rest

/-- core.go `crdConditions`. -/
def crdConditions (_now : Int) (u : Unstructured) : Exec Result :=
  match GetObjectWithConditions u.Object with
  | .error e => .error (.goError e)
  | .ok conds =>
    match crdCondScan conds with
    | some r => .ok r
    | none => .ok (inProgress ("installing"))

/-- core.go `legacyTypes`: the registry from the dispatch key to the
kind-specific classifier. -/
def legacyTypes (key : String) :
    Option (Int → Unstructured → Exec Result) :=
  match key with
  | "Service" => some serviceConditions
  | "Pod" => some podConditions
  | "Secret" => some alwaysReady
  | "PersistentVolumeClaim" => some pvcConditions
  | "apps/StatefulSet" => some stsConditions
  | "apps/DaemonSet" => some daemonsetConditions
  | "extensions/DaemonSet" => some daemonsetConditions
  | "apps/Deployment" => some deploymentConditions
  | "extensions/Deployment" => some deploymentConditions
  | "apps/ReplicaSet" => some replicasetConditions
  | "extensions/ReplicaSet" => some replicasetConditions
  | "policy/PodDisruptionBudget" => some pdbConditions
  | "batch/CronJob" => some alwaysReady
  | "ConfigMap" => some alwaysReady
  | "batch/Job" => some jobConditions
  | "apiextensions.k8s.io/CustomResourceDefinition" => some crdConditions
  | _ => none

/-- core.go `GetLegacyConditionsFn`. -/
def GetLegacyConditionsFn (u : Unstructured) :
    Option (Int → Unstructured → Exec Result) :=
  legacyTypes (dispatchKey u)

/-- status.go `Compute`: generic rules first, then the kind-specific
classifier, else `noStatusInfo`. -/
def Compute (now : Int) (u : Unstructured) : Exec Result :=
  match checkGenericProperties u with
  | .error e => .error e
  | .ok (some res) => .ok res
  | .ok none =>
    match GetLegacyConditionsFn u with
    | some fn => fn now u
    | none => .ok noStatusInfo

/-- provider.go `maxRetries`. -/
def maxRetries : Nat := 5

/-- One fetch outcome of `client.Get` during a poll attempt. -/
inductive FetchResult where
  | okObj (u : Unstructured)
  | notFound
  | fetchErr (msg : String)

/-- provider.go `getStatus`: classify one fetch outcome into
`(newObj, continue, err)`.  The `Except.error` case models a propagating
runtime panic; any ordinary classification error is caught into the err
component. -/
def getStatus (now : Int) (fetched : FetchResult) (del : Bool) (attempt : Nat) :
    Except String (Option Unstructured × Bool × Option String) :=
  match fetched with
  | .notFound => if del then .ok (none, false, none) else .ok (none, true, none)
  | .fetchErr e => .ok (none, true, some e)
  | .okObj newObj =>
    match Compute now newObj with
    | .error (.goPanic p) => .error p
    | .error (.goError m) => .ok (some newObj, true, some m)
    | .ok result =>
      if result.Status = ConditionFalse then
        if result.Reason = ReasonFailed then
          .ok (some newObj, false, some ("failed: " ++ result.Message))
        else .ok (some newObj, true, none)
      else if result.Reason = ReasonNoStatusInfo ∧ attempt < maxRetries - 2 then
        .ok (some newObj, true, none)
      else .ok (some newObj, false, none)

/-- The final outcome of `getStatusWithRetries`: either an in-loop return
`(newObj, err)`, or the post-loop exhaustion error, whose components are the
arguments of its `fmt.Errorf("getStatus gvk %s nsn %s after %d retries: %w")`
call. -/
inductive PollOutcome where
  | done (obj : Option Unstructured) (err : Option String)
  | exhausted (gvk : String) (nsn : String) (retries : Nat)
      (lastErr : Option String)

/-- A run of the retry loop: its outcome, the number of fetch attempts made,
and the backoff sleeps performed between attempts (nanoseconds). -/
structure PollRun where
  outcome : PollOutcome
  attemptsMade : Nat
  backoffSleeps : List Int

/-- `initialDelay * backoffFactor^attempt` (1s, factor 2, exact in float64). -/
def backoffNs (attempt : Nat) : Int := 1000000000 * 2 ^ attempt

/-- The retry loop of provider.go `getStatusWithRetries`.  `err` is the
function-scope `var err error`: the loop body's `newObj, cont, err :=` is a
short variable declaration that redeclares (shadows) `err`, so the
function-scope value threaded here is never assigned by an attempt, and the
in-loop return statement returns the loop-local error instead.
The loop guard `attempt < maxRetries` is carried structurally: `remaining`
is `maxRetries - attempt`, so `remaining = 0` is exactly loop exit. -/
def getStatusLoop (fetch : Nat → FetchResult) (nowAt : Nat → Int) (del : Bool)
    (gvk nsn : String) (err : Option String) :
    (attempt : Nat) → (remaining : Nat) → Except String PollRun
  | _, 0 => .ok ⟨.exhausted gvk nsn maxRetries err, 0, []⟩
  | attempt, remaining + 1 =>
    match getStatus (nowAt attempt) (fetch attempt) del attempt with
    | .error p => .error p
    | .ok (newObj, cont, attemptErr) =>
      if cont then
        match getStatusLoop fetch nowAt del gvk nsn err (attempt + 1) remaining with
        | .error p => .error p
        | .ok run =>
          .ok ⟨run.outcome, run.attemptsMade + 1,
               backoffNs attempt :: run.backoffSleeps⟩
      else .ok ⟨.done newObj attemptErr, 1, []⟩

/-- provider.go `getStatusWithRetries`, over an oracle giving the fetch
outcome and the clock value of each attempt. -/
def getStatusWithRetries (fetch : Nat → FetchResult) (nowAt : Nat → Int)
    (u : Unstructured) (del : Bool) : Except String PollRun :=
  getStatusLoop fetch nowAt del (u.groupVersionKind).toGoString (nsnString u)
    none 0 maxRetries

/-! Concrete resource snapshots used to instantiate the theorems. -/

/-- The ConfigMap manifest of the repository's `TestCompute` table. -/
def cmSnapshot : Unstructured :=
  ⟨[("apiVersion", Value.vstr ("v1")),
    ("kind", Value.vstr ("ConfigMap")),
    ("metadata", Value.vmap
      [("name", Value.vstr ("edge01")),
       ("namespace", Value.vstr ("default")),
       ("resourceVersion", Value.vstr ("803002"))]),
    ("data", Value.vmap
      [("attachmentType", Value.vstr ("vlan")),
       ("clusterName", Value.vstr ("edge10")),
       ("count", Value.vstr ("5")),
       ("revision", Value.vstr ("v1"))])]⟩

/-- A resource of a kind with no registered classifier and no status. -/
def fooSnapshot : Unstructured :=
  ⟨[("apiVersion", Value.vstr ("example.com/v1")),
    ("kind", Value.vstr ("Foo")),
    ("metadata", Value.vmap
      [("name", Value.vstr ("foo")),
       ("namespace", Value.vstr ("default"))])]⟩

/-- A Pending pod carrying a `PodScheduled=False/Unschedulable` condition,
created at epoch second 0. -/
def pendingPod : Unstructured :=
  ⟨[("apiVersion", Value.vstr ("v1")),
    ("kind", Value.vstr ("Pod")),
    ("metadata", Value.vmap
      [("name", Value.vstr ("p1")),
       ("namespace", Value.vstr ("default")),
       ("creationTimestamp", Value.vstr ("1970-01-01T00:00:00Z"))]),
    ("status", Value.vmap
      [("phase", Value.vstr ("Pending")),
       ("conditions", Value.vlist
         [Value.vmap
           [("type", Value.vstr ("PodScheduled")),
            ("status", Value.vstr ("False")),
            ("reason", Value.vstr ("Unschedulable"))]])])]⟩

/-- The decoded condition list of `pendingPod`. -/
def pendingPodConds : List Cond := [⟨"PodScheduled", "False", "Unschedulable", ""⟩]

/-- A pod whose `status.conditions` value cannot be decoded into the
condition schema (a string where a list is expected). -/
def badCondsPod : Unstructured :=
  ⟨[("apiVersion", Value.vstr ("v1")),
    ("kind", Value.vstr ("Pod")),
    ("metadata", Value.vmap [("name", Value.vstr ("p3"))]),
    ("status", Value.vmap [("conditions", Value.vstr ("oops"))])]⟩

/-- A Running pod whose first container status carries a `name` of the wrong
dynamic type (an integer where a string is expected). -/
def crashPod : Unstructured :=
  ⟨[("apiVersion", Value.vstr ("v1")),
    ("kind", Value.vstr ("Pod")),
    ("metadata", Value.vmap [("name", Value.vstr ("p2"))]),
    ("status", Value.vmap
      [("phase", Value.vstr ("Running")),
       ("containerStatuses", Value.vlist
         [Value.vmap [("name", Value.vint 42)]])])]⟩

/-- A deployment scheduled for deletion: `metadata.deletionTimestamp` set,
while every other signal says ready. -/
def deletedSnapshot : Unstructured :=
  ⟨[("apiVersion", Value.vstr ("apps/v1")),
    ("kind", Value.vstr ("Deployment")),
    ("metadata", Value.vmap
      [("name", Value.vstr ("test")),
       ("namespace", Value.vstr ("qual")),
       ("deletionTimestamp", Value.vstr ("2024-01-01T00:00:00Z"))]),
    ("status", Value.vmap
      [("conditions", Value.vlist
        [Value.vmap
          [("type", Value.vstr ("Ready")),
           ("status", Value.vstr ("True"))]])])]⟩

/-- The Deployment family of the repository's `TestCompute` table: replicas
all 1, `spec.replicas` present or defaulted, matching generation `g`, and the
`Progressing=True/NewReplicaSetAvailable` plus `Available=True` conditions. -/
def mkDeployment (withSpecReplicas : Bool) (g : Int) : Unstructured :=
  ⟨[("apiVersion", Value.vstr ("apps/v1")),
    ("kind", Value.vstr ("Deployment")),
    ("metadata", Value.vmap
      [("name", Value.vstr ("test")),
       ("namespace", Value.vstr ("qual")),
       ("generation", Value.vint g)]),
    ("spec", Value.vmap
      (if withSpecReplicas then [("replicas", Value.vint 1)] else [])),
    ("status", Value.vmap
      [("observedGeneration", Value.vint g),
       ("updatedReplicas", Value.vint 1),
       ("readyReplicas", Value.vint 1),
       ("availableReplicas", Value.vint 1),
       ("replicas", Value.vint 1),
       ("conditions", Value.vlist
         [Value.vmap
           [("type", Value.vstr ("Progressing")),
            ("status", Value.vstr ("True")),
            ("reason", Value.vstr ("NewReplicaSetAvailable"))],
          Value.vmap
           [("type", Value.vstr ("Available")),
            ("status", Value.vstr ("True"))]])])]⟩

/-- The Result invariant of the spec: `Status` is True exactly for the
reasons Ready, NoStatusInfo and UserManaged, and False exactly for the
reasons Terminating, InProgress and Failed. -/
def resultInvariant (r : Result) : Prop :=
  (r.Status = ConditionTrue ↔
    r.Reason = ReasonReady ∨ r.Reason = ReasonNoStatusInfo ∨
      r.Reason = ReasonUserManaged)
  ∧ (r.Status = ConditionFalse ↔
    r.Reason = ReasonTerminating ∨ r.Reason = ReasonInProgress ∨
      r.Reason = ReasonFailed)

/-! Theorems. -/

theorem inv_ready (m : String) : resultInvariant (ready m) := by
  constructor <;>
    simp [ready, resultInvariant, ConditionTrue, ConditionFalse, ReasonReady,
      ReasonTerminating, ReasonInProgress, ReasonNoStatusInfo,
      ReasonUserManaged, ReasonFailed]

theorem inv_noStatusInfo : resultInvariant noStatusInfo := by
  constructor <;>
    simp [noStatusInfo, resultInvariant, ConditionTrue, ConditionFalse,
      ReasonReady, ReasonTerminating, ReasonInProgress, ReasonNoStatusInfo,
      ReasonUserManaged, ReasonFailed]

theorem inv_userManaged : resultInvariant userManaged := by
  constructor <;>
    simp [userManaged, resultInvariant, ConditionTrue, ConditionFalse,
      ReasonReady, ReasonTerminating, ReasonInProgress, ReasonNoStatusInfo,
      ReasonUserManaged, ReasonFailed]

theorem inv_inProgress (m : String) : resultInvariant (inProgress m) := by
  constructor <;>
    simp [inProgress, resultInvariant, ConditionTrue, ConditionFalse,
      ReasonReady, ReasonTerminating, ReasonInProgress, ReasonNoStatusInfo,
      ReasonUserManaged, ReasonFailed]

theorem inv_terminating : resultInvariant terminating := by
  constructor <;>
    simp [terminating, resultInvariant, ConditionTrue, ConditionFalse,
      ReasonReady, ReasonTerminating, ReasonInProgress, ReasonNoStatusInfo,
      ReasonUserManaged, ReasonFailed]

theorem inv_failed (m : String) : resultInvariant (failed m) := by
  constructor <;>
    simp [failed, resultInvariant, ConditionTrue, ConditionFalse, ReasonReady,
      ReasonTerminating, ReasonInProgress, ReasonNoStatusInfo,
      ReasonUserManaged, ReasonFailed]

theorem readyCondScan_inv (conds : List Cond) (r : Result)
    (h : readyCondScan conds = some r) : resultInvariant r := by
  induction conds with
  | nil => simp [readyCondScan] at h
  | cons c rest ih =>
    unfold readyCondScan at h
    repeat' split at h
    all_goals (try (injection h with h; subst h))
    · exact inv_ready _
    · exact inv_inProgress _
    · exact ih h

theorem stsConditions_inv (now : Int) (u : Unstructured) (r : Result)
    (h : stsConditions now u = .ok r) : resultInvariant r := by
  unfold stsConditions at h
  dsimp only [] at h
  repeat' split at h
  all_goals (injection h with h; subst h)
  all_goals first
    | exact inv_ready _
    | exact inv_inProgress _
    | exact inv_userManaged
    | exact inv_failed _
    | exact inv_terminating
    | exact inv_noStatusInfo

theorem deploymentCondScan_inv (conds : List Cond) (p a : Bool) (r : Result)
    (h : deploymentCondScan conds p a = .inl r) : resultInvariant r := by
  induction conds generalizing p a with
  | nil => simp [deploymentCondScan] at h
  | cons c rest ih =>
    unfold deploymentCondScan at h
    repeat' split at h
    all_goals first
      | (injection h with h; subst h; exact inv_failed _)
      | exact ih _ _ h

theorem deploymentConditions_inv (now : Int) (u : Unstructured) (r : Result)
    (h : deploymentConditions now u = .ok r) : resultInvariant r := by
  unfold deploymentConditions at h
  dsimp only [] at h
  repeat' split at h
  all_goals first
    | exact Except.noConfusion h
    | (injection h with h; subst h; first
        | exact inv_ready _
        | exact inv_inProgress _
        | exact deploymentCondScan_inv _ _ _ _ (by assumption))

theorem replicaFailureScan_inv (conds : List Cond) (r : Result)
    (h : replicaFailureScan conds = some r) : resultInvariant r := by
  induction conds with
  | nil => simp [replicaFailureScan] at h
  | cons c rest ih =>
    unfold replicaFailureScan at h
    split at h
    · injection h with h; subst h; exact inv_inProgress _
    · exact ih h

theorem replicasetConditions_inv (now : Int) (u : Unstructured) (r : Result)
    (h : replicasetConditions now u = .ok r) : resultInvariant r := by
  unfold replicasetConditions at h
  dsimp only [] at h
  repeat' split at h
  all_goals first
    | exact Except.noConfusion h
    | (injection h with h; subst h; first
        | exact inv_ready _
        | exact inv_inProgress _
        | exact replicaFailureScan_inv _ _ (by assumption))

theorem checkGenerationSet_inv (u : Unstructured) (r : Result)
    (h : checkGenerationSet u = .ok (some r)) : resultInvariant r := by
  unfold checkGenerationSet at h
  repeat' split at h
  all_goals first
    | exact Except.noConfusion h
    | (injection h with h; exact Option.noConfusion h)
    | (injection h with h; injection h with h; subst h; exact inv_inProgress _)

theorem daemonsetConditions_inv (now : Int) (u : Unstructured) (r : Result)
    (h : daemonsetConditions now u = .ok r) : resultInvariant r := by
  unfold daemonsetConditions at h
  dsimp only [] at h
  repeat' split at h
  all_goals first
    | exact Except.noConfusion h
    | (injection h with h; subst h; first
        | exact inv_ready _
        | exact inv_inProgress _
        | exact checkGenerationSet_inv _ _ (by assumption))

theorem pvcConditions_inv (now : Int) (u : Unstructured) (r : Result)
    (h : pvcConditions now u = .ok r) : resultInvariant r := by
  unfold pvcConditions at h
  dsimp only [] at h
  repeat' split at h
  all_goals (injection h with h; subst h; first
    | exact inv_ready _
    | exact inv_inProgress _)

theorem podConditions_inv (now : Int) (u : Unstructured) (r : Result)
    (h : podConditions now u = .ok r) : resultInvariant r := by
  unfold podConditions at h
  dsimp only [] at h
  repeat' split at h
  all_goals first
    | exact Except.noConfusion h
    | (injection h with h; subst h; first
        | exact inv_ready _
        | exact inv_inProgress _
        | exact inv_failed _)

theorem pdbConditions_inv (now : Int) (u : Unstructured) (r : Result)
    (h : pdbConditions now u = .ok r) : resultInvariant r := by
  unfold pdbConditions at h
  injection h with h; subst h
  exact inv_ready _

theorem jobCondScan_inv (completions succeeded podFailed : Int)
    (conds : List Cond) (r : Result)
    (h : jobCondScan completions succeeded podFailed conds = some r) :
    resultInvariant r := by
  induction conds with
  | nil => simp [jobCondScan] at h
  | cons c rest ih =>
    unfold jobCondScan at h
    repeat' split at h
    all_goals first
      | (injection h with h; subst h; first
          | exact inv_ready _
          | exact inv_failed _)
      | exact ih h

theorem jobConditions_inv (now : Int) (u : Unstructured) (r : Result)
    (h : jobConditions now u = .ok r) : resultInvariant r := by
  unfold jobConditions at h
  dsimp only [] at h
  repeat' split at h
  all_goals first
    | exact Except.noConfusion h
    | (injection h with h; subst h; first
        | exact inv_inProgress _
        | exact jobCondScan_inv _ _ _ _ _ (by assumption))

theorem serviceConditions_inv (now : Int) (u : Unstructured) (r : Result)
    (h : serviceConditions now u = .ok r) : resultInvariant r := by
  unfold serviceConditions at h
  dsimp only [] at h
  repeat' split at h
  all_goals (injection h with h; subst h; first
    | exact inv_ready _
    | exact inv_inProgress _)

theorem crdCondScan_inv (conds : List Cond) (r : Result)
    (h : crdCondScan conds = some r) : resultInvariant r := by
  induction conds with
  | nil => simp [crdCondScan] at h
  | cons c rest ih =>
    unfold crdCondScan at h
    repeat' split at h
    all_goals first
      | (injection h with h; subst h; first
          | exact inv_ready _
          | exact inv_failed _)
      | exact ih h

theorem crdConditions_inv (now : Int) (u : Unstructured) (r : Result)
    (h : crdConditions now u = .ok r) : resultInvariant r := by
  unfold crdConditions at h
  repeat' split at h
  all_goals first
    | exact Except.noConfusion h
    | (injection h with h; subst h; first
        | exact inv_inProgress _
        | exact crdCondScan_inv _ _ (by assumption))

theorem alwaysReady_inv (now : Int) (u : Unstructured) (r : Result)
    (h : alwaysReady now u = .ok r) : resultInvariant r := by
  unfold alwaysReady at h
  injection h with h; subst h
  exact inv_ready _

theorem checkGeneration_inv (u : Unstructured) (r : Result)
    (h : checkGeneration u = .ok (some r)) : resultInvariant r := by
  unfold checkGeneration at h
  repeat' split at h
  all_goals first
    | exact Except.noConfusion h
    | (injection h with h; exact Option.noConfusion h)
    | (injection h with h; injection h with h; subst h; exact inv_inProgress _)

theorem checkGenericProperties_inv (u : Unstructured) (r : Result)
    (h : checkGenericProperties u = .ok (some r)) : resultInvariant r := by
  unfold checkGenericProperties checkGenericPropertiesRest at h
  repeat' split at h
  all_goals first
    | exact Except.noConfusion h
    | (injection h with h; exact Option.noConfusion h)
    | (injection h with h; exact readyCondScan_inv _ _ h)
    | (injection h with h; injection h with h; subst h; first
        | exact inv_terminating
        | exact checkGeneration_inv _ _ (by assumption))

/-- C1: every verdict produced by the classifier — `Compute`, hence any
generic or kind-specific rule — satisfies the Result invariant: `Status` is
True iff the `Reason` is Ready, NoStatusInfo or UserManaged, and False iff
the `Reason` is Terminating, InProgress or Failed. -/
theorem compute_result_invariant (now : Int) (u : Unstructured) (r : Result)
    (h : Compute now u = .ok r) : resultInvariant r := by
  unfold Compute at h
  split at h
  · exact Except.noConfusion h
  · injection h with h; subst h
    exact checkGenericProperties_inv _ _ (by assumption)
  · split at h
    · rename_i fn hfn
      unfold GetLegacyConditionsFn legacyTypes at hfn
      split at hfn
      all_goals first
        | exact Option.noConfusion hfn
        | (injection hfn with hfn; subst hfn; first
            | exact serviceConditions_inv _ _ _ h
            | exact podConditions_inv _ _ _ h
            | exact alwaysReady_inv _ _ _ h
            | exact pvcConditions_inv _ _ _ h
            | exact stsConditions_inv _ _ _ h
            | exact daemonsetConditions_inv _ _ _ h
            | exact deploymentConditions_inv _ _ _ h
            | exact replicasetConditions_inv _ _ _ h
            | exact pdbConditions_inv _ _ _ h
            | exact jobConditions_inv _ _ _ h
            | exact crdConditions_inv _ _ _ h)
    · injection h with h; subst h
      exact inv_noStatusInfo

/-- Witness for C1: the classifier's verdict on the repository's own
ConfigMap test manifest satisfies the Result invariant. -/
theorem compute_result_invariant_witness : resultInvariant (ready ("ready")) :=
  compute_result_invariant 0 cmSnapshot (ready ("ready")) rfl

/-- C2 counterexample: `Compute` is not a function of the snapshot alone.
The Pod classifier reads the clock, so the same Pending/unschedulable pod
snapshot classifies InProgress 10 seconds after its creation and Failed 1000
seconds after it. -/
theorem compute_time_dependent_pod_cex :
    Compute 10 pendingPod = .ok (inProgress ("Pod has not been scheduled"))
    ∧ Compute 1000 pendingPod = .ok (failed ("Pod could not be scheduled")) :=
  ⟨rfl, rfl⟩

/-- C2 (amended): `Compute` is a deterministic, side-effect-free function of
its snapshot and the current time; for every snapshot that does not dispatch
to the core-group Pod classifier, the verdict is moreover identical
regardless of when the call is made. -/
theorem compute_time_independent_nonpod (t1 t2 : Int) (u : Unstructured)
    (h : dispatchKey u ≠ "Pod") : Compute t1 u = Compute t2 u := by
  unfold Compute
  cases hcgp : checkGenericProperties u with
  | error e => rfl
  | ok o =>
    cases o with
    | some r => rfl
    | none =>
      cases hfn : GetLegacyConditionsFn u with
      | none => rfl
      | some fn =>
        unfold GetLegacyConditionsFn legacyTypes at hfn
        split at hfn
        all_goals first
          | exact Option.noConfusion hfn
          | (injection hfn with hfn; subst hfn; first
              | rfl
              | exact absurd (by assumption) h)

/-- Witness for C2 (amended): on the ConfigMap snapshot the verdict does not
depend on the call time. -/
theorem compute_time_independent_nonpod_witness :
    Compute 0 cmSnapshot = Compute 999 cmSnapshot :=
  compute_time_independent_nonpod 0 999 cmSnapshot (by decide)

/-- C3: a snapshot whose `metadata.deletionTimestamp` holds a non-empty
string classifies as `Terminating` regardless of its kind and of any other
content — the deletion rule runs first. -/
theorem compute_terminating_precedence (now : Int) (u : Unstructured)
    (s : String)
    (hfound : NestedString u.Object ["metadata", "deletionTimestamp"]
      = .ok (some s))
    (hne : s ≠ "") : Compute now u = .ok terminating := by
  unfold Compute checkGenericProperties
  rw [hfound]
  dsimp only []
  rw [if_pos hne]

/-- Witness for C3: a deployment with a deletion timestamp, whose Ready
condition would otherwise classify it as ready, is Terminating. -/
theorem compute_terminating_precedence_witness :
    Compute 0 deletedSnapshot = .ok terminating :=
  compute_terminating_precedence 0 deletedSnapshot ("2024-01-01T00:00:00Z")
    rfl (by decide)

/-- C5: when no generic rule yields a verdict and the dispatch key has no
registered classifier, `Compute` returns exactly
`(Status True, Reason NoStatusInfo, Message "")` with no error. -/
theorem compute_noStatusInfo_unregistered (now : Int) (u : Unstructured)
    (hgen : checkGenericProperties u = .ok none)
    (hreg : GetLegacyConditionsFn u = none) :
    Compute now u = .ok ⟨ConditionTrue, ReasonNoStatusInfo, ""⟩ := by
  unfold Compute
  rw [hgen]
  dsimp only []
  rw [hreg]
  rfl

/-- Witness for C5: an unregistered custom kind with no status classifies as
NoStatusInfo. -/
theorem compute_noStatusInfo_unregistered_witness :
    Compute 0 fooSnapshot = .ok ⟨ConditionTrue, ReasonNoStatusInfo, ""⟩ :=
  compute_noStatusInfo_unregistered 0 fooSnapshot rfl rfl

/-- C6 counterexample: a malformed `status.containerStatuses` entry (a
`name` of the wrong dynamic type) does not produce an error return: the
unchecked type assertion in `getCrashLoopingContainers` panics. -/
theorem compute_malformed_name_panics_cex :
    Compute 0 crashPod
      = .error (.goPanic ("interface conversion: name is not a string")) := rfl

/-- C6 (amended): a malformed conditions substructure propagates as a Go
error return — never as an InProgress verdict — through every
condition-decoding kind classifier (Pod, Deployment, ReplicaSet, Job, CRD)
and through `Compute` itself once the earlier generic rules pass without a
verdict; however, a containerStatuses entry whose `name` holds a value of
the wrong dynamic type makes `getCrashLoopingContainers` panic rather than
return an error. -/
theorem pod_malformed_error_or_panic :
    (∀ (now : Int) (u : Unstructured) (m : String),
      GetObjectWithConditions u.Object = .error m →
        podConditions now u = .error (.goError m)
        ∧ deploymentConditions now u = .error (.goError m)
        ∧ replicasetConditions now u = .error (.goError m)
        ∧ jobConditions now u = .error (.goError m)
        ∧ crdConditions now u = .error (.goError m))
    ∧ (∀ (now : Int) (u : Unstructured) (m : String),
      NestedString u.Object ["metadata", "deletionTimestamp"] = .ok none →
      checkGeneration u = .ok none →
      GetObjectWithConditions u.Object = .error m →
        Compute now u = .error (.goError m))
    ∧ (∀ v : Value, (∀ s, v ≠ Value.vstr s) →
        getCrashLoopingContainers
          [("status", Value.vmap
            [("containerStatuses", Value.vlist [Value.vmap [("name", v)]])])]
        = .error (.goPanic ("interface conversion: name is not a string"))) := by
  refine ⟨fun now u m hm => ⟨?_, ?_, ?_, ?_, ?_⟩, fun now u m hdel hgen hm => ?_,
    fun v hv => ?_⟩
  · unfold podConditions
    rw [hm]
  · unfold deploymentConditions
    dsimp only []
    rw [hm]
  · unfold replicasetConditions
    dsimp only []
    rw [hm]
  · unfold jobConditions
    dsimp only []
    rw [hm]
  · unfold crdConditions
    rw [hm]
  · unfold Compute checkGenericProperties checkGenericPropertiesRest
    rw [hdel]
    dsimp only []
    rw [hgen]
    dsimp only []
    rw [hm]
  · cases v <;> first
      | exact absurd rfl (hv _)
      | rfl

/-- Witness for C6 (amended): a pod whose conditions value is a string
propagates the decode failure as a goError through `Compute` and
`podConditions`, and an integer-valued container name panics. -/
theorem pod_malformed_error_or_panic_witness :
    Compute 0 badCondsPod = .error (.goError ("cannot convert conditions"))
    ∧ podConditions 0 badCondsPod = .error (.goError ("cannot convert conditions"))
    ∧ getCrashLoopingContainers
      [("status", Value.vmap
        [("containerStatuses", Value.vlist [Value.vmap [("name", Value.vint 7)]])])]
      = .error (.goPanic ("interface conversion: name is not a string")) :=
  ⟨pod_malformed_error_or_panic.2.1 0 badCondsPod ("cannot convert conditions")
      rfl rfl rfl,
   (pod_malformed_error_or_panic.1 0 badCondsPod ("cannot convert conditions")
      rfl).1,
   pod_malformed_error_or_panic.2.2 (Value.vint 7)
      (fun _ h => Value.noConfusion h)⟩

/-- C7: on a Pending pod, a `PodScheduled=False` condition with reason
`Unschedulable` classifies InProgress while the pod's age is under the
15-second schedule window and Failed once it is over it; a Pending pod
without such a condition — whether it has no `PodScheduled=False` condition
at all, or one whose reason is not `Unschedulable` — is always InProgress. -/
theorem podConditions_pending_window (now : Int) (u : Unstructured)
    (conds : List Cond) (c : Cond)
    (hconds : GetObjectWithConditions u.Object = .ok conds)
    (hphase : GetStringField u.Object (".status.phase") ("") = "Pending") :
    ((getConditionWithStatus conds ("PodScheduled") ConditionFalse = some c →
      c.reason = "Unschedulable" →
        (now - creationTime u < ScheduleWindow →
          podConditions now u = .ok (inProgress ("Pod has not been scheduled")))
        ∧ (ScheduleWindow < now - creationTime u →
          podConditions now u = .ok (failed ("Pod could not be scheduled")))))
    ∧ (∀ c2 : Cond,
        getConditionWithStatus conds ("PodScheduled") ConditionFalse = some c2 →
        c2.reason ≠ "Unschedulable" →
        podConditions now u = .ok (inProgress ("Pod is in the Pending phase")))
    ∧ (getConditionWithStatus conds ("PodScheduled") ConditionFalse = none →
        podConditions now u = .ok (inProgress ("Pod is in the Pending phase"))) := by
  have key : podConditions now u =
      (match getConditionWithStatus conds ("PodScheduled") ConditionFalse with
       | some c =>
         if c.reason = "Unschedulable" then
           if now - ScheduleWindow < creationTime u then
             .ok (inProgress ("Pod has not been scheduled"))
           else .ok (failed ("Pod could not be scheduled"))
         else .ok (inProgress ("Pod is in the Pending phase"))
       | none => .ok (inProgress ("Pod is in the Pending phase"))) := by
    unfold podConditions
    rw [hconds]
    dsimp only []
    rw [hphase]
    simp
  refine ⟨fun hcond hreason => ?_, fun c2 hcond2 hne => ?_, fun hnone => ?_⟩
  · rw [key, hcond]
    dsimp only []
    rw [if_pos hreason]
    constructor
    · intro hage
      rw [if_pos (by simp only [ScheduleWindow] at hage ⊢; omega)]
    · intro hage
      rw [if_neg (by simp only [ScheduleWindow] at hage ⊢; omega)]
  · rw [key, hcond2]
    dsimp only []
    rw [if_neg hne]
  · rw [key, hnone]

/-- Witness for C7: the concrete Pending/unschedulable pod created at epoch
second 0, observed at epoch second 10, is InProgress. -/
theorem podConditions_pending_window_witness :
    podConditions 10 pendingPod = .ok (inProgress ("Pod has not been scheduled")) :=
  ((podConditions_pending_window 10 pendingPod pendingPodConds
      ⟨"PodScheduled", "False", "Unschedulable", ""⟩ rfl rfl).1
    rfl rfl).1 (by decide)

/-- C9: every Deployment snapshot of the specified family — replica counts
all 1, `spec.replicas` present as 1 or left to its default of 1, matching
generation and observedGeneration, `Progressing=True/NewReplicaSetAvailable`
and `Available=True` conditions — classifies as
`(True, Ready, "Deployment is available. Replicas: 1")` with no error. -/
theorem compute_deployment_ready (b : Bool) (g : Int) (now : Int) :
    Compute now (mkDeployment b g)
      = .ok (ready ("Deployment is available. Replicas: 1")) := by
  have hdel : NestedString (mkDeployment b g).Object
      ["metadata", "deletionTimestamp"] = .ok none := rfl
  have hgen : checkGeneration (mkDeployment b g) = .ok none := by
    have h1 : NestedInt64 (mkDeployment b g).Object ["metadata", "generation"]
        = .ok (some g) := rfl
    have h2 : NestedInt64 (mkDeployment b g).Object
        ["status", "observedGeneration"] = .ok (some g) := rfl
    unfold checkGeneration
    rw [h1, h2]
    simp
  have hconds : GetObjectWithConditions (mkDeployment b g).Object
      = .ok [⟨"Progressing", "True", "NewReplicaSetAvailable", ""⟩,
             ⟨"Available", "True", "", ""⟩] := rfl
  have hcgp : checkGenericProperties (mkDeployment b g) = .ok none := by
    unfold checkGenericProperties checkGenericPropertiesRest
    rw [hdel, hgen]
    dsimp only []
    rw [hconds]
    rfl
  unfold Compute
  rw [hcgp]
  cases b <;> rfl

/-- C10: `GetIntField` yields the stored value exactly when the value at the
(stripped) dotted path is a native integer; any other stored value — in
particular a float64, the representation generic JSON unmarshalling gives
every number — is silently ignored in favour of the supplied default. -/
theorem getIntField_int_only (obj : List (String × Value)) (fieldPath : String)
    (d : Int) :
    (∀ n : Int,
      NestedFieldNoCopy obj (fieldPathSegs fieldPath) = .ok (some (Value.vint n)) →
        GetIntField obj fieldPath d = n)
    ∧ (∀ v : Value,
      NestedFieldNoCopy obj (fieldPathSegs fieldPath) = .ok (some v) →
        (∀ n : Int, v ≠ Value.vint n) → GetIntField obj fieldPath d = d) := by
  constructor
  · intro n hn
    unfold GetIntField
    rw [hn]
  · intro v hv hne
    unfold GetIntField
    rw [hv]
    cases v <;> first
      | exact absurd rfl (hne _)
      | rfl

/-- Witness for C10: a float-valued `.spec.replicas` of 3 is ignored and the
default 1 is returned. -/
theorem getIntField_int_only_witness :
    GetIntField [("spec", Value.vmap [("replicas", Value.vfloat 3)])]
      (".spec.replicas") 1 = 1 :=
  (getIntField_int_only
      [("spec", Value.vmap [("replicas", Value.vfloat 3)])]
      (".spec.replicas") 1).2
    (Value.vfloat 3) rfl (fun _ h => Value.noConfusion h)

/-- C4 (the code as written): when every attempt fails with a fetch error
"boom", the exhausted-retries failure still wraps no error at all — the
loop's short variable declaration shadows the accumulating `err`, so the
identity and attempt count are reported but the last recorded error is
lost. -/
theorem poller_exhaustion_drops_last_error :
    getStatusWithRetries (fun _ => FetchResult.fetchErr ("boom")) (fun _ => 0)
      fooSnapshot false
    = .ok ⟨.exhausted ("example.com/v1, Kind=Foo") ("default/foo") 5 none, 5,
           [backoffNs 0, backoffNs 1, backoffNs 2, backoffNs 3, backoffNs 4]⟩ :=
  rfl

/-- C8: a poll session with `isDeletion = true` whose first fetch returns
not-found succeeds immediately: no snapshot, no error, one attempt, no
backoff sleeps. -/
theorem poller_delete_notfound_immediate (fetch : Nat → FetchResult)
    (nowAt : Nat → Int) (u : Unstructured)
    (h : fetch 0 = FetchResult.notFound) :
    getStatusWithRetries fetch nowAt u true = .ok ⟨.done none none, 1, []⟩ := by
  unfold getStatusWithRetries maxRetries getStatusLoop
  rw [h]
  rfl

/-- Witness for C8: the concrete always-not-found fetch oracle. -/
theorem poller_delete_notfound_immediate_witness :
    getStatusWithRetries (fun _ => FetchResult.notFound) (fun _ => 0)
      fooSnapshot true = .ok ⟨.done none none, 1, []⟩ :=
  poller_delete_notfound_immediate (fun _ => FetchResult.notFound)
    (fun _ => 0) fooSnapshot rfl

end KStatus
